import Mathlib

/-!
Verification development for the portracker router-integration subsystem.

The embedding covers two generations of the OpenWrt client shipped in the
repository (namespace V1 embeds the RPC-only client of src/unnamed/part_001,
namespace V2 embeds the SSH+RPC unified client of src/unnamed/part_002) and
the credential codec (src/backend/lib/router-encryption.js).

Remote effects (SSH command execution, HTTP JSON-RPC requests) are embedded
as oracle functions supplied by an environment; every operation returns its
result together with the ordered list of remote calls it issued, so that
claims about call sequences and about the absence of remote calls are
statable.  JavaScript exceptions are embedded as Except String carrying the
error message; JavaScript string-or-undefined values are embedded as String
with the empty string standing for undefined wherever the source only
distinguishes them through truthiness.
-/

namespace Portracker

/-- True for the ten ASCII digit characters. -/
def isAsciiDigit (c : Char) : Bool := decide ('0' ≤ c ∧ c ≤ '9')

/-- List-of-characters prefix test (first argument starts with second). -/
def startsWithL : List Char → List Char → Bool
  | _, [] => true
  | [], _ :: _ => false
  | c :: cs, d :: ds => c = d && startsWithL cs ds

/-- Substring containment on character lists. -/
def containsSub : List Char → List Char → Bool
  | [], pat => decide (pat = [])
  | l@(_ :: rest), pat => startsWithL l pat || containsSub rest pat

/-- The characters after the first occurrence of pat, none if absent. -/
def afterFirst : List Char → List Char → Option (List Char)
  | [], _ => none
  | l@(_ :: rest), pat =>
    if startsWithL l pat then some (l.drop pat.length) else afterFirst rest pat

/-- The characters before the next occurrence of pat (everything if absent). -/
def upToFirst : List Char → List Char → List Char
  | [], _ => []
  | l@(c :: rest), pat =>
    if startsWithL l pat then [] else c :: upToFirst rest pat

/-- Remove the first occurrence of pat, like the JavaScript String.replace
    with a string pattern and an empty replacement. -/
def removeFirstSub (pat : List Char) : List Char → List Char
  | [] => []
  | l@(c :: rest) =>
    if startsWithL l pat then l.drop pat.length else c :: removeFirstSub pat rest

/-- Split a character list at every occurrence of the separator character,
    like the JavaScript String.split with a one-character separator. -/
def splitOnChar (sep : Char) : List Char → List (List Char)
  | [] => [[]]
  | c :: rest =>
    if c = sep then [] :: splitOnChar sep rest
    else
      match splitOnChar sep rest with
      | s :: ss => (c :: s) :: ss
      | [] => [[c]]

/-- Decimal value of a digit run, as in parseInt(s, 10) on an all-digit run. -/
def parseIntDec (ds : List Char) : Nat :=
  ds.foldl (fun acc c => acc * 10 + (c.toNat - 48)) 0

/-- JavaScript parseInt(s) followed by the source idiom (parseInt(x) or 0):
    the leading (optionally sign-prefixed) digit run, or 0 when there is
    none.  Embeds parseInt(srcPort) with a fallback of 0. -/
def jsParseIntOr0 (s : String) : Int :=
  match s.data with
  | '-' :: rest =>
    let ds := rest.takeWhile isAsciiDigit
    if ds = [] then 0 else -(parseIntDec ds : Int)
  | l =>
    let ds := l.takeWhile isAsciiDigit
    if ds = [] then 0 else (parseIntDec ds : Int)

/-- JavaScript (a or-else b) on strings where a may be undefined: both the
    empty string and undefined are falsy, and the source collapses them the
    same way, so undefined is embedded as the empty string. -/
def jsOrS (a b : String) : String := if a = "" then b else a

/-- One dotted-quad component of the IPv4 regular expression used by
    isValidIpAddress: 25[0-5], 2[0-4][0-9], or [01]?[0-9][0-9]?. -/
def isOctet (s : List Char) : Bool :=
  match s with
  | [a] => isAsciiDigit a
  | [a, b] => isAsciiDigit a && isAsciiDigit b
  | [a, b, c] =>
    (a = '2' && b = '5' && decide ('0' ≤ c ∧ c ≤ '5')) ||
    (a = '2' && decide ('0' ≤ b ∧ b ≤ '4') && isAsciiDigit c) ||
    ((a = '0' || a = '1') && isAsciiDigit b && isAsciiDigit c)
  | _ => false

/-- isValidIpAddress from openwrt-api.js: the anchored IPv4 dotted-quad
    regular expression, equivalently four dot-separated octet components. -/
def isValidIpAddress (ip : String) : Bool :=
  match splitOnChar '.' ip.data with
  | [a, b, c, d] => isOctet a && isOctet b && isOctet c && isOctet d
  | _ => false

/-- isValidPort from openwrt-api.js: an integer between 1 and 65535.  Port
    values are embedded as integers, so the Number.isInteger guard of the
    source is carried by the type. -/
def isValidPort (p : Int) : Bool := decide (1 ≤ p ∧ p ≤ 65535)

/-- A character kept verbatim by generateUciName: [a-z0-9_]. -/
def isUciChar (c : Char) : Bool :=
  decide ('a' ≤ c ∧ c ≤ 'z') || isAsciiDigit c || c = '_'

/-- generateUciName from openwrt-api.js: lower-case the name, replace every
    character outside [a-z0-9_] with an underscore, truncate to 32. -/
def generateUciName (name : String) : String :=
  String.mk
    (((name.data.map Char.toLower).map
      (fun c => if isUciChar c then c else '_')).take 32)

/-- Result record of parseRouterUrl in src/unnamed/part_002. -/
structure ParsedUrl where
  hostname : String
  port : Nat
  baseUrl : String
deriving DecidableEq, Repr

/-- First match of the regular expression colon-digits: scans left to right
    for a colon immediately followed by a digit and returns the maximal
    digit run after that colon. -/
def portDigits : List Char → Option (List Char)
  | [] => none
  | c :: rest =>
    if c = ':' && (match rest with | d :: _ => isAsciiDigit d | [] => false) then
      some (rest.takeWhile isAsciiDigit)
    else portDigits rest

/-- parseRouterUrl from src/unnamed/part_002: strips an optional scheme,
    extracts an explicit port if one is present (first colon-digits match),
    defaults the port to 22, and rebuilds baseUrl from hostname and port.
    The piece after the scheme is the second element of the split on the
    scheme separator, exactly as url.split between the two occurrences. -/
def parseRouterUrl (url : String) : ParsedUrl :=
  let mk := fun (h : String) (p : Nat) =>
    ParsedUrl.mk h p ("http://" ++ h ++ ":" ++ toString p)
  let sep := [':', '/', '/']
  if containsSub url.data sep then
    let w := upToFirst ((afterFirst url.data sep).getD []) sep
    match portDigits w with
    | some ds => mk (String.mk (w.takeWhile (fun c => c ≠ ':'))) (parseIntDec ds)
    | none => mk (String.mk (w.takeWhile (fun c => c ≠ '/'))) 22
  else
    match portDigits url.data with
    | some ds => mk (String.mk (url.data.takeWhile (fun c => c ≠ ':'))) (parseIntDec ds)
    | none => mk url 22

/-!
## Credential codec (src/backend/lib/router-encryption.js)

The module encrypts with aes-256-gcm through the node crypto library, with a
16-byte random initialization vector and a 16-byte authentication tag.  The
cipher primitive is external to the repository, so it is embedded as GCM
mode (NIST SP 800-38D structure: counter-mode keystream, GHASH-derived tag)
over an abstract block cipher E, a parameter of every definition; the AES
block function itself is never inverted by GCM, so the statements hold for
every E.  Byte strings stand for the hex-encoded transport strings of the
source (hex encoding being a bijection on byte sequences), the process-wide
key from getEncryptionKey is a parameter shared by encrypt and decrypt, and
the random initialization vector drawn inside encrypt is a parameter of
encrypt.  Thrown errors are Except.error of the thrown message.
-/

namespace RouterEncryption

/-- Big-endian byte expansion: toBytesBE k v is the k low-order bytes of v,
    most significant first. -/
def toBytesBE : Nat → Nat → List Nat
  | 0, _ => []
  | k + 1, v => toBytesBE k (v / 256) ++ [v % 256]

/-- Big-endian byte-list to natural number. -/
def bytesToNatBE (bs : List Nat) : Nat := bs.foldl (fun acc b => acc * 256 + b) 0

/-- A 16-byte GHASH block from up to 16 bytes, zero-padded on the right. -/
def padBlock (bs : List Nat) : Nat := bytesToNatBE bs * 256 ^ (16 - bs.length)

/-- Split a byte list into 128-bit GHASH blocks (fuel-driven recursion on
    the length).  The last block is zero-padded. -/
def chunkBlocksAux : Nat → List Nat → List Nat
  | 0, _ => []
  | _, [] => []
  | fuel + 1, bs => padBlock (bs.take 16) :: chunkBlocksAux fuel (bs.drop 16)

/-- The GHASH block sequence of a byte string. -/
def chunkBlocks (bs : List Nat) : List Nat := chunkBlocksAux bs.length bs

/-- The GCM reduction constant R = 11100001 followed by 120 zero bits. -/
def gcmR : Nat := 0xe1000000000000000000000000000000

/-- One hundred twenty eight shift-and-xor steps of the GCM multiplication
    in GF(2 ^ 128), processing the bits of x from most significant down. -/
def gfMulAux : Nat → Nat → Nat → Nat → Nat
  | 0, _, _, z => z
  | fuel + 1, x, v, z =>
    let z2 := if x.testBit 127 then z ^^^ v else z
    let v2 := if v % 2 = 1 then (v / 2) ^^^ gcmR else v / 2
    gfMulAux fuel (x * 2 % 2 ^ 128) v2 z2

/-- GCM multiplication in GF(2 ^ 128). -/
def gfMul (x y : Nat) : Nat := gfMulAux 128 x y 0

/-- GHASH over a block sequence with hash subkey h. -/
def ghashBlocks (h : Nat) (blocks : List Nat) : Nat :=
  blocks.foldl (fun y b => gfMul ((y ^^^ b) % 2 ^ 128) h) 0

/-- The GHASH length block for aad-free data of the given byte length. -/
def lenBlock (ctLen : Nat) : Nat := 8 * ctLen % 2 ^ 64

/-- The pre-counter block J0 of GCM: the padded 96-bit initialization
    vector with a counter of 1, or for other lengths (the source uses a
    16-byte vector) the GHASH of the padded vector and its bit length. -/
def deriveJ0 (E : Nat → Nat → Nat) (key : Nat) (iv : List Nat) : Nat :=
  if iv.length = 12 then bytesToNatBE iv * 2 ^ 32 + 1
  else ghashBlocks (E key 0 % 2 ^ 128) (chunkBlocks iv ++ [lenBlock iv.length])

/-- The i-th counter block: the top 96 bits of J0 with the low 32-bit word
    incremented by i modulo 2 ^ 32. -/
def inc32 (j0 i : Nat) : Nat := j0 / 2 ^ 32 * 2 ^ 32 + (j0 % 2 ^ 32 + i) % 2 ^ 32

/-- The first n bytes of the GCM counter-mode keystream (counters start at
    the successor of J0; the J0 block itself masks the tag). -/
def ksBytes (E : Nat → Nat → Nat) (key j0 n : Nat) : List Nat :=
  (((List.range ((n + 15) / 16)).map
    (fun i => toBytesBE 16 (E key (inc32 j0 (i + 1))))).flatten).take n

/-- The 16-byte GCM authentication tag over a ciphertext: the GHASH of the
    ciphertext and its length block, masked with the encrypted J0 block. -/
def gcmTag (E : Nat → Nat → Nat) (key : Nat) (iv c : List Nat) : List Nat :=
  toBytesBE 16
    (E key (deriveJ0 E key iv) ^^^
      ghashBlocks (E key 0 % 2 ^ 128) (chunkBlocks c ++ [lenBlock c.length]))

/-- The triple returned by encrypt: ciphertext, initialization vector and
    authentication tag (hex transport strings embedded as byte lists). -/
structure EncTriple where
  encrypted : List Nat
  iv : List Nat
  tag : List Nat
deriving DecidableEq, Repr

/-- encrypt from router-encryption.js: rejects an empty plaintext, then
    produces the counter-mode ciphertext, the initialization vector and the
    authentication tag.  The interior try block cannot fail in this model,
    so the rethrow branch does not appear. -/
def encrypt (E : Nat → Nat → Nat) (key : Nat) (iv p : List Nat) :
    Except String EncTriple :=
  if p = [] then .error "Cannot encrypt empty string"
  else
    let c := List.zipWith (· ^^^ ·) p (ksBytes E key (deriveJ0 E key iv) p.length)
    .ok { encrypted := c, iv := iv, tag := gcmTag E key iv c }

/-- decrypt from router-encryption.js: rejects missing parameters, then the
    authenticated decipher recomputes the tag over the ciphertext and the
    initialization vector, fails when it differs from the supplied tag, and
    otherwise strips the keystream; every cipher failure is rethrown as the
    uniform failure message of the source. -/
def decrypt (E : Nat → Nat → Nat) (key : Nat) (t : EncTriple) :
    Except String (List Nat) :=
  if t.encrypted = [] ∨ t.iv = [] ∨ t.tag = [] then
    .error "Missing encryption parameters"
  else if t.tag = gcmTag E key t.iv t.encrypted then
    .ok (List.zipWith (· ^^^ ·) t.encrypted
      (ksBytes E key (deriveJ0 E key t.iv) t.encrypted.length))
  else .error "Failed to decrypt data"

end RouterEncryption

/-!
## The unified SSH+RPC client (src/unnamed/part_002, lib/openwrt-api.js)

SshUciClient runs one shell command per connection; the transport is an
oracle from structured commands to the trimmed standard output (ok) or the
connection or exit failure message (error).  The commands carry exactly the
data interpolated into the shell strings of the source.
-/

namespace V2

/-- The connectionMode strings of OpenWrtClient: auto, ssh, or rpc. -/
inductive CMode
  | auto
  | ssh
  | rpc
deriving DecidableEq, Repr

/-- The shell commands issued by SshUciClient, one constructor per command
    string of the source: probe is the testConnection diagnostic (cat
    /etc/openwrt_release, first line), showRedirects is uci show firewall
    filtered to =redirect lines, getOption sec opt is uci get
    firewall.sec.opt, addSection is uci add firewall redirect, setLast opt
    value is uci set firewall.@redirect[-1].opt=value, deleteSection sec is
    uci delete firewall.sec, commit is uci commit firewall, and
    restartFirewall is the best-effort /etc/init.d/firewall restart. -/
inductive Cmd
  | probe
  | showRedirects
  | getOption (sec opt : String)
  | addSection
  | setLast (opt value : String)
  | deleteSection (sec : String)
  | commit
  | restartFirewall
deriving DecidableEq, Repr

/-- The SSH transport oracle: the outcome of executing one command. -/
def SshEnv : Type := Cmd → Except String String

/-- Effect of an SshUciClient method: given the transport it yields a result
    or thrown message, together with the ordered commands it issued. -/
def M (α : Type) : Type := SshEnv → Except String α × List Cmd

/-- Result unchanged, no commands issued. -/
def M.pure (a : α) : M α := fun _ => (.ok a, [])

/-- Sequencing: a thrown error short-circuits; traces concatenate. -/
def M.bind (x : M α) (f : α → M β) : M β := fun env =>
  match x env with
  | (.error e, t) => (.error e, t)
  | (.ok a, t) =>
    let r := f a env
    (r.1, t ++ r.2)

instance : Monad M where
  pure := M.pure
  bind := M.bind

/-- JavaScript try/catch: the handler receives the thrown message; commands
    issued before the throw remain issued. -/
def M.tryCatch (x : M α) (h : String → M α) : M α := fun env =>
  match x env with
  | (.error e, t) =>
    let r := h e env
    (r.1, t ++ r.2)
  | (.ok a, t) => (.ok a, t)

/-- A thrown JavaScript error. -/
def M.throw (e : String) : M α := fun _ => (.error e, [])

/-- SshUciClient.exec: one connection, one command, the trimmed standard
    output on exit code zero, otherwise a rejection. -/
def execCmd (c : Cmd) : M String := fun env => (env c, [c])

/-- The caller-supplied port-forwarding configuration consumed by
    addRedirect (JavaScript undefined embedded as the empty string for the
    two fields the source reads through the or-else operator). -/
structure RuleConfig where
  name : String
  protocol : String
  externalPort : Int
  internalIp : String
  internalPort : Int
deriving DecidableEq, Repr

/-- Result record of addRedirect and deleteRedirect. -/
structure AddResult where
  success : Bool
  id : String
deriving DecidableEq, Repr

/-- SshUciClient.addRedirect: derives the UCI-safe name, then issues the
    add, the nine option sets addressed through the relative index
    @redirect[-1], the commit, and the firewall restart, with no validation
    of any field. -/
def addRedirect (cfg : RuleConfig) : M AddResult :=
  let uciName := generateUciName (jsOrS cfg.name "port_forward")
  do
    let _ ← execCmd .addSection
    let _ ← execCmd (.setLast "name" uciName)
    let _ ← execCmd (.setLast "target" "DNAT")
    let _ ← execCmd (.setLast "src" "wan")
    let _ ← execCmd (.setLast "dest" "lan")
    let _ ← execCmd (.setLast "proto" (jsOrS cfg.protocol "tcp"))
    let _ ← execCmd (.setLast "src_dport" (toString cfg.externalPort))
    let _ ← execCmd (.setLast "dest_ip" cfg.internalIp)
    let _ ← execCmd (.setLast "dest_port" (toString cfg.internalPort))
    let _ ← execCmd (.setLast "enabled" "1")
    let _ ← execCmd .commit
    let _ ← execCmd .restartFirewall
    pure { success := true, id := uciName }

/-- SshUciClient.deleteRedirect: delete, commit, restart. -/
def deleteRedirect (id : String) : M Bool := do
  let _ ← execCmd (.deleteSection id)
  let _ ← execCmd .commit
  let _ ← execCmd .restartFirewall
  pure true

/-- A rule record assembled by getRedirects. -/
structure Rule where
  id : String
  name : String
  target : String
  src : String
  dest : String
  protocol : String
  external_port : Int
  internal_ip : String
  internal_port : Int
  enabled : Bool
deriving DecidableEq, Repr

/-- The regular expression firewall dot capture-of-non-equals =redirect
    applied to one line: the first position where the literal firewall-dot
    prefix is followed by a nonempty equals-free run and then =redirect
    yields the captured section name. -/
def matchRedirectLine : List Char → Option (List Char)
  | [] => none
  | l@(_ :: rest) =>
    (if startsWithL l "firewall.".data then
      let post := l.drop 9
      let cap := post.takeWhile (fun c => c ≠ '=')
      if cap ≠ [] && startsWithL (post.drop cap.length) "=redirect".data then
        some cap
      else none
    else none).elim (matchRedirectLine rest) some

/-- The loop body of getRedirects for one matched section: nine uci get
    commands, then the rule record, with the defaulting the source applies
    (synthesized name, protocol tcp, numeric ports through parseInt-or-0,
    enabled unless the read value is exactly the string 0). -/
def readRule (uciName : String) : M Rule := do
  let name ← execCmd (.getOption uciName "name")
  let target ← execCmd (.getOption uciName "target")
  let src ← execCmd (.getOption uciName "src")
  let dest ← execCmd (.getOption uciName "dest")
  let proto ← execCmd (.getOption uciName "proto")
  let srcPort ← execCmd (.getOption uciName "src_dport")
  let destIp ← execCmd (.getOption uciName "dest_ip")
  let destPort ← execCmd (.getOption uciName "dest_port")
  let enabled ← execCmd (.getOption uciName "enabled")
  pure
    { id := uciName
      name := jsOrS name
        ("Redirect " ++ String.mk
          (removeFirstSub "]".data (removeFirstSub "@redirect[".data uciName.data)))
      target := target
      src := src
      dest := dest
      protocol := jsOrS proto "tcp"
      external_port := jsParseIntOr0 srcPort
      internal_ip := destIp
      internal_port := jsParseIntOr0 destPort
      enabled := enabled != "0" }

/-- The per-line loop of getRedirects: skip lines without a redirect match,
    read one rule per matched section, preserving order. -/
def processLines : List (List Char) → M (List Rule)
  | [] => M.pure []
  | line :: rest =>
    match matchRedirectLine line with
    | none => processLines rest
    | some cap => do
      let r ← readRule (String.mk cap)
      let rs ← processLines rest
      pure (r :: rs)

/-- The try block of getRedirects: run the listing command, return no rules
    on empty output, otherwise assemble one rule per matched line. -/
def getRedirectsBody : M (List Rule) := do
  let output ← execCmd .showRedirects
  if output = "" then M.pure []
  else processLines (splitOnChar '\n' output.data)

/-- SshUciClient.getRedirects: list the redirect lines and assemble one
    rule per section; every failure anywhere inside, including the listing
    command itself, is caught and converted to an empty rule list. -/
def getRedirects : M (List Rule) :=
  M.tryCatch getRedirectsBody (fun _ => M.pure [])

/-- Result record of the testConnection methods. -/
structure TestResult where
  success : Bool
  message : String
deriving DecidableEq, Repr

/-- SshUciClient.testConnection: run the probe command; a failure is caught
    and reported as an unsuccessful result, never rethrown. -/
def sshTestConnection : M TestResult :=
  M.tryCatch
    (do
      let v ← execCmd .probe
      M.pure { success := true, message := "Connected to OpenWrt (" ++ v ++ ")" })
    (fun e => M.pure { success := false, message := "SSH failed: " ++ e })

/-!
### The JSON-RPC side and the unified client of part_002

OpenWrtRpcClient posts JSON envelopes to the Luci endpoint.  A request is
embedded structurally: the login post, or a call post carrying the params
array the source builds; callRpc prepends the stored auth token and the
literal uci to whatever params it is given, so the uci helper, which already
passes that same pair inside its params argument, produces a doubled
prefix, reproduced verbatim here.  The oracle returns the parsed response
body (an error field and a result field) on HTTP success, or the thrown
message (HTTP failure or network failure) as an error.
-/

/-- A JSON value appearing in a params array: a string, the stored token
    (null until authentication), or a nested array of strings. -/
inductive PV
  | s (v : String)
  | t (v : Option String)
  | a (vs : List String)
deriving DecidableEq, Repr

/-- One HTTP post made by OpenWrtRpcClient. -/
inductive RpcReq
  | login
  | call (params : List PV)
deriving DecidableEq, Repr

/-- A parsed JSON-RPC response body. -/
structure RpcData where
  error : Option String
  result : Option String
deriving DecidableEq, Repr

/-- A remote interaction of the unified client: an SSH command or an HTTP
    post. -/
inductive Call
  | ssh (c : Cmd)
  | rpc (r : RpcReq)
deriving DecidableEq, Repr

/-- The remote world the unified client talks to. -/
structure Env2 where
  ssh : Cmd → Except String String
  rpc : RpcReq → Except String RpcData

/-- The mutable fields of OpenWrtClient: the connection mode string, whether
    the two inner clients have been constructed, and the auth token stored
    inside the RPC client. -/
structure ClientState where
  connectionMode : CMode
  sshClient : Bool
  rpcClient : Bool
  authToken : Option String
deriving DecidableEq, Repr

/-- Effect of a unified-client method: result or thrown message, the state
    after the call (JavaScript mutations survive a throw), and the ordered
    remote interactions. -/
def S (α : Type) : Type :=
  Env2 → ClientState → Except String α × ClientState × List Call

def S.pure (a : α) : S α := fun _ st => (.ok a, st, [])

def S.bind (x : S α) (f : α → S β) : S β := fun env st =>
  match x env st with
  | (.error e, st2, t) => (.error e, st2, t)
  | (.ok a, st2, t) =>
    let r := f a env st2
    (r.1, r.2.1, t ++ r.2.2)

instance : Monad S where
  pure := S.pure
  bind := S.bind

def S.throw (e : String) : S α := fun _ st => (.error e, st, [])

def S.tryCatch (x : S α) (h : String → S α) : S α := fun env st =>
  match x env st with
  | (.error e, st2, t) =>
    let r := h e env st2
    (r.1, r.2.1, t ++ r.2.2)
  | (.ok a, st2, t) => (.ok a, st2, t)

/-- Run an SshUciClient method through the stored configuration: no state
    change, the commands appear in the unified trace. -/
def liftSsh (x : M α) : S α := fun env st =>
  match x env.ssh with
  | (r, t) => (r, st, t.map Call.ssh)

/-- One HTTP post (fetch): HTTP or network failure is a throw. -/
def rpcFetch (r : RpcReq) : S RpcData := fun env st => (env.rpc r, st, [.rpc r])

def getState : S ClientState := fun _ st => (.ok st, st, [])

def modifyState (f : ClientState → ClientState) : S Unit :=
  fun _ st => (.ok (), f st, [])

/-- OpenWrtRpcClient.authenticate: post the login call; an error field in
    the body is a thrown authentication failure, otherwise the result field
    becomes the stored token. -/
def rpcAuthenticate : S Unit := do
  let d ← rpcFetch .login
  match d.error with
  | some e => S.throw ("Authentication failed: " ++ e)
  | none => modifyState (fun st => { st with authToken := d.result })

/-- The params array callRpc posts for the system-info probe inside
    OpenWrtRpcClient.testConnection: the token, uci, get, [system, info]. -/
def sysInfoReq (tok : Option String) : RpcReq :=
  .call [.t tok, .s "uci", .s "get", .a ["system", "info"]]

/-- The params array callRpc posts for OpenWrtRpcClient.uci m ps: callRpc
    prepends the token and uci to the already token-and-uci-prefixed params
    of the uci helper. -/
def uciReq (tok : Option String) (m : String) (ps : List String) : RpcReq :=
  .call [.t tok, .s "uci", .t tok, .s "uci", .s m, .a ps]

/-- OpenWrtRpcClient.testConnection: authenticate, then post the
    system-info call; any failure is caught and reported unsuccessful. -/
def rpcTestConnection : S TestResult :=
  S.tryCatch
    (do
      rpcAuthenticate
      let st ← getState
      let _ ← rpcFetch (sysInfoReq st.authToken)
      S.pure { success := true, message := "JSON-RPC connection successful" })
    (fun e => S.pure { success := false, message := "JSON-RPC failed: " ++ e })

/-- OpenWrtClient.initialize: explicit ssh or rpc mode just constructs the
    inner client; auto mode constructs the SSH client and probes it first,
    pinning ssh on success without any RPC traffic; otherwise it constructs
    the RPC client, probes it, re-authenticates and pins rpc; if nothing
    succeeded it throws the unreachable-router error. -/
def initClient : S Unit := do
  let st0 ← getState
  match st0.connectionMode with
  | CMode.ssh => modifyState (fun st => { st with sshClient := true })
  | CMode.rpc => modifyState (fun st => { st with rpcClient := true })
  | CMode.auto => do
    modifyState (fun st => { st with sshClient := true })
    let sshResult ← liftSsh sshTestConnection
    if sshResult.success then
      modifyState (fun st => { st with connectionMode := CMode.ssh })
    else do
      let st1 ← getState
      if st1.rpcClient then S.pure () else
        modifyState (fun st => { st with rpcClient := true })
      let done ← S.tryCatch
        (do
          let res ← rpcTestConnection
          if res.success then do
            rpcAuthenticate
            modifyState (fun st => { st with connectionMode := CMode.rpc })
            S.pure true
          else S.pure false)
        (fun _ => S.pure false)
      if done then S.pure ()
      else S.throw "Unable to connect to router. Please check your settings."

/-- Result record of OpenWrtClient.testConnection. -/
structure OwTestResult where
  success : Bool
  message : String
  mode : CMode
  requiresPlugins : Bool
deriving DecidableEq, Repr

/-- OpenWrtClient.testConnection: always probes a fresh SSH client, stores
    it and sets the connection mode to ssh, whatever the probe outcome and
    whatever mode the client was bound to.  The catch branch and the RPC
    fallback of the source are unreachable, because
    SshUciClient.testConnection never rejects. -/
def owTestConnection : S OwTestResult := do
  let result ← liftSsh sshTestConnection
  modifyState (fun st =>
    { st with sshClient := true, connectionMode := CMode.ssh })
  S.pure
    { success := result.success, message := result.message
      mode := CMode.ssh, requiresPlugins := false }

/-- Result record of OpenWrtClient.getPortForwardings. -/
structure ListResult where
  loc : List Rule
  mode : CMode
deriving DecidableEq, Repr

/-- OpenWrtClient.getPortForwardings: in ssh mode delegate to getRedirects;
    in every other mode post the uci get to the RPC client (a missing inner
    client is the JavaScript null dereference, embedded as a throw) and
    return an empty list with mode rpc. -/
def getPortForwardings : S ListResult := do
  let st ← getState
  if st.connectionMode = CMode.ssh then
    if st.sshClient then do
      let l ← liftSsh getRedirects
      S.pure { loc := l, mode := CMode.ssh }
    else S.throw "TypeError: sshClient is null"
  else
    if st.rpcClient then do
      let _ ← rpcFetch (uciReq st.authToken "get" ["firewall"])
      S.pure { loc := [], mode := CMode.rpc }
    else S.throw "TypeError: rpcClient is null"

/-- OpenWrtClient.addPortForwarding: delegate in ssh mode, otherwise throw
    the not-implemented error without any remote call. -/
def owAddPortForwarding (cfg : RuleConfig) : S AddResult := do
  let st ← getState
  if st.connectionMode = CMode.ssh then
    if st.sshClient then liftSsh (addRedirect cfg)
    else S.throw "TypeError: sshClient is null"
  else S.throw "JSON-RPC mode not yet implemented for adding forwardings"

/-- OpenWrtClient.deletePortForwarding: delegate in ssh mode, otherwise
    throw the not-implemented error without any remote call. -/
def owDeletePortForwarding (id : String) : S Bool := do
  let st ← getState
  if st.connectionMode = CMode.ssh then
    if st.sshClient then liftSsh (deleteRedirect id)
    else S.throw "TypeError: sshClient is null"
  else S.throw "JSON-RPC mode not yet implemented for deleting forwardings"

end V2

/-!
## The RPC-only client (src/unnamed/part_001, openwrt-api.js)

OpenWrtClient here talks only JSON-RPC.  The oracle answers the login post,
the get_all configuration dump, and the other uci operation posts; the
response body carries an optional error and an optional result.  The only
mutable client field is the stored auth token.  The catch blocks of the
source that log and rethrow the same error are identities and are embedded
as such.
-/

namespace V1

/-- One HTTP post made by the part_001 client: the login call or a uci call
    with its method name and flattened params array. -/
inductive V1Req
  | auth
  | uci (m : String) (ps : List String)
deriving DecidableEq, Repr

/-- A parsed response body whose result is only ever read as a scalar. -/
structure V1Resp where
  error : Option String
  result : Option String
deriving DecidableEq, Repr

/-- One section of the firewall configuration as returned by get_all, with
    its dot-type and the option values getPortForwardings reads.  The
    source reads absent options and empty strings through the same falsy
    paths, so absent is embedded as the empty string. -/
structure V1Section where
  type : String
  name : String
  target : String
  src : String
  dest : String
  proto : String
  src_dport : String
  dest_ip : String
  dest_port : String
  enabled : String
  reflection : String
deriving DecidableEq, Repr

/-- A response body for the get_all call, whose result is the section map
    (insertion-ordered, as Object.keys iterates it). -/
structure V1AllResp where
  error : Option String
  result : Option (List (String × V1Section))
deriving DecidableEq, Repr

/-- The remote world of the part_001 client. -/
structure Env1 where
  auth : Except String V1Resp
  getAll : Except String V1AllResp
  op : String → List String → Except String V1Resp

/-- Effect of a part_001 client method: result or thrown message, the auth
    token after the call, and the ordered posts. -/
def S1 (α : Type) : Type :=
  Env1 → Option String → Except String α × Option String × List V1Req

def S1.pure (a : α) : S1 α := fun _ tok => (.ok a, tok, [])

def S1.bind (x : S1 α) (f : α → S1 β) : S1 β := fun env tok =>
  match x env tok with
  | (.error e, tok2, t) => (.error e, tok2, t)
  | (.ok a, tok2, t) =>
    let r := f a env tok2
    (r.1, r.2.1, t ++ r.2.2)

instance : Monad S1 where
  pure := S1.pure
  bind := S1.bind

def S1.throw (e : String) : S1 α := fun _ tok => (.error e, tok, [])

def S1.tryCatch (x : S1 α) (h : String → S1 α) : S1 α := fun env tok =>
  match x env tok with
  | (.error e, tok2, t) =>
    let r := h e env tok2
    (r.1, r.2.1, t ++ r.2.2)
  | (.ok a, tok2, t) => (.ok a, tok2, t)

def getToken : S1 (Option String) := fun _ tok => (.ok tok, tok, [])

def setToken (v : Option String) : S1 Unit := fun _ _ => (.ok (), v, [])

/-- The login post of callRpc auth. -/
def fetchAuth : S1 V1Resp := fun env tok => (env.auth, tok, [.auth])

/-- The uci get_all firewall post. -/
def fetchGetAll : S1 V1AllResp := fun env tok =>
  (env.getAll, tok, [.uci "get_all" ["firewall"]])

/-- Any other uci operation post. -/
def fetchOp (m : String) (ps : List String) : S1 V1Resp := fun env tok =>
  (env.op m ps, tok, [.uci m ps])

/-- OpenWrtClient.authenticate (part_001): post the login call, throw on an
    error field, otherwise store the result field as the token.  The catch
    that logs and rethrows is the identity. -/
def authenticate1 : S1 Unit := do
  let d ← fetchAuth
  match d.error with
  | some e => S1.throw ("Authentication failed: " ++ e)
  | none => setToken d.result

/-- The token guard repeated at the top of every public method and inside
    the uci helper: authenticate only when no token is stored. -/
def ensureAuth : S1 Unit := do
  let tok ← getToken
  match tok with
  | some _ => S1.pure ()
  | none => authenticate1

/-- OpenWrtClient.uci (part_001) for the get_all call. -/
def uciGetAll : S1 V1AllResp := do
  ensureAuth
  fetchGetAll

/-- OpenWrtClient.uci (part_001) for every other call. -/
def uci1 (m : String) (ps : List String) : S1 V1Resp := do
  ensureAuth
  fetchOp m ps

/-- The canonical rule record getPortForwardings (part_001) builds from a
    redirect section: raw option strings, the key as fallback name, and the
    enabled flag true unless the option is exactly the string 0. -/
structure V1Rule where
  uciName : String
  name : String
  target : String
  src : String
  dest : String
  proto : String
  srcDport : String
  destIp : String
  destPort : String
  enabled : Bool
  reflection : String
deriving DecidableEq, Repr

/-- The rule record built from one section key and body. -/
def mkV1Rule (kv : String × V1Section) : V1Rule :=
  { uciName := kv.1
    name := jsOrS kv.2.name kv.1
    target := kv.2.target
    src := kv.2.src
    dest := kv.2.dest
    proto := kv.2.proto
    srcDport := kv.2.src_dport
    destIp := kv.2.dest_ip
    destPort := kv.2.dest_port
    enabled := kv.2.enabled != "0"
    reflection := kv.2.reflection }

/-- OpenWrtClient.getPortForwardings (part_001): ensure a token, dump the
    firewall configuration, throw on an error field, keep the sections of
    dot-type redirect in order; the catch logs and rethrows the failure
    unchanged. -/
def getPortForwardings1 : S1 (List V1Rule) := do
  ensureAuth
  S1.tryCatch
    (do
      let resp ← uciGetAll
      match resp.error with
      | some e => S1.throw ("UCI error: " ++ e)
      | none =>
        S1.pure (((resp.result.getD []).filter
          (fun kv => kv.2.type = "redirect")).map mkV1Rule))
    (fun e => S1.throw e)

/-- The configuration consumed by addPortForwarding (part_001), with the
    destructuring defaults of the source: the optional fields default only
    when absent (undefined), unlike the or-else fields elsewhere. -/
structure V1AddConfig where
  name : String
  protocol : Option String
  externalPort : Int
  internalIp : String
  internalPort : Int
  src : Option String
  dest : Option String
  target : Option String
deriving DecidableEq, Repr

/-- Result record of addPortForwarding (part_001). -/
structure V1AddResult where
  success : Bool
  uciName : String
  message : String
deriving DecidableEq, Repr

/-- Post one uci operation and throw with the given prefix when the
    response carries an error field (the per-step checks of the source). -/
def checkOp (pre m : String) (ps : List String) : S1 Unit := do
  let r ← uci1 m ps
  match r.error with
  | some e => S1.throw (pre ++ e)
  | none => S1.pure ()

/-- OpenWrtClient.addPortForwarding (part_001): ensure a token, validate
    the internal address and both ports (in that order, throwing an error
    that names the offending value), then add, rename to the UCI-safe name,
    set the nine options, and commit; the per-set error message interpolates
    op[1][1], which is the section name, not the option name; the catch
    logs and rethrows unchanged. -/
def addPortForwarding1 (cfg : V1AddConfig) : S1 V1AddResult := do
  ensureAuth
  if ¬ isValidIpAddress cfg.internalIp then
    S1.throw ("Invalid internal IP address: " ++ cfg.internalIp)
  else if ¬ isValidPort cfg.externalPort then
    S1.throw ("Invalid external port: " ++ toString cfg.externalPort)
  else if ¬ isValidPort cfg.internalPort then
    S1.throw ("Invalid internal port: " ++ toString cfg.internalPort)
  else
    let uciName := generateUciName cfg.name
    S1.tryCatch
      (do
        checkOp "Failed to add redirect: " "add" ["firewall", "redirect"]
        checkOp "Failed to rename redirect: " "rename"
          ["firewall", "@redirect[-1]", uciName]
        checkOp ("Failed to set " ++ uciName ++ ": ") "set"
          ["firewall", uciName, "name", cfg.name]
        checkOp ("Failed to set " ++ uciName ++ ": ") "set"
          ["firewall", uciName, "target", cfg.target.getD "DNAT"]
        checkOp ("Failed to set " ++ uciName ++ ": ") "set"
          ["firewall", uciName, "src", cfg.src.getD "wan"]
        checkOp ("Failed to set " ++ uciName ++ ": ") "set"
          ["firewall", uciName, "dest", cfg.dest.getD "lan"]
        checkOp ("Failed to set " ++ uciName ++ ": ") "set"
          ["firewall", uciName, "proto", cfg.protocol.getD "tcp"]
        checkOp ("Failed to set " ++ uciName ++ ": ") "set"
          ["firewall", uciName, "src_dport", toString cfg.externalPort]
        checkOp ("Failed to set " ++ uciName ++ ": ") "set"
          ["firewall", uciName, "dest_ip", cfg.internalIp]
        checkOp ("Failed to set " ++ uciName ++ ": ") "set"
          ["firewall", uciName, "dest_port", toString cfg.internalPort]
        checkOp ("Failed to set " ++ uciName ++ ": ") "set"
          ["firewall", uciName, "enabled", "1"]
        checkOp "Failed to commit firewall config: " "commit" ["firewall"]
        S1.pure
          { success := true, uciName := uciName
            message := "Port forwarding \"" ++ cfg.name ++ "\" added successfully" })
      (fun e => S1.throw e)

end V1

/-!
## Concrete fixtures

Environments, configurations and states used by the closed theorems below:
deterministic oracles standing for routers that accept or reject each
transport, and the concrete inputs named by the specification examples.
-/

/-- Is a unified-client remote interaction an SSH command? -/
def isSshCall : V2.Call → Bool
  | .ssh _ => true
  | .rpc _ => false

/-- Is an SSH command one of the option sets of addRedirect? -/
def isSetCmd : V2.Cmd → Bool
  | .setLast _ _ => true
  | _ => false

/-- A transport on which every command succeeds with empty output. -/
def envAllOk : V2.SshEnv := fun _ => .ok ""

/-- The invalid rule input of the specification validation example. -/
def cfg999 : V2.RuleConfig :=
  { name := "", protocol := "", externalPort := 80
    internalIp := "999.1.1.1", internalPort := 80 }

/-- The valid rule input of the specification end-to-end example. -/
def cfgWeb : V2.RuleConfig :=
  { name := "web", protocol := "tcp", externalPort := 8080
    internalIp := "10.0.0.5", internalPort := 80 }

/-- A freshly constructed unified client in auto mode. -/
def stFresh : V2.ClientState :=
  { connectionMode := .auto, sshClient := false, rpcClient := false
    authToken := none }

/-- A client bound to the RPC transport. -/
def stRpcBound : V2.ClientState :=
  { connectionMode := .rpc, sshClient := false, rpcClient := true
    authToken := some "tok" }

/-- A router rejecting both transports. -/
def envBothFail : V2.Env2 :=
  { ssh := fun _ => .error "connect ECONNREFUSED"
    rpc := fun _ => .error "HTTP 404: Not Found" }

/-- A router accepting the SSH transport and rejecting RPC. -/
def envSshUp : V2.Env2 :=
  { ssh := fun _ => .ok "OpenWrt 21.02", rpc := fun _ => .error "HTTP 404: Not Found" }

/-- A router rejecting SSH and accepting RPC with token tok. -/
def envRpcUp : V2.Env2 :=
  { ssh := fun _ => .error "All configured authentication methods failed"
    rpc := fun _ => .ok { error := none, result := some "tok" } }

/-- An SSH transport whose listing command fails (exit code 1). -/
def envShowFail : V2.SshEnv := fun c =>
  match c with
  | .showRedirects => .error "Command exited with code 1: "
  | _ => .ok ""

/-- An SSH transport exposing one redirect section named myrule whose
    enabled option is absent, so that reading it exits nonzero. -/
def envMissingEnabled : V2.SshEnv := fun c =>
  match c with
  | .showRedirects => .ok "firewall.myrule=redirect"
  | .getOption _ "enabled" => .error "Command exited with code 1: uci: Entry not found"
  | .getOption _ _ => .ok "v"
  | _ => .ok ""

/-- An SSH transport exposing one anonymous redirect section whose enabled
    option is the string 0 and whose name option is empty. -/
def envDisabledRule : V2.SshEnv := fun c =>
  match c with
  | .showRedirects => .ok "firewall.@redirect[0]=redirect"
  | .getOption _ "enabled" => .ok "0"
  | .getOption _ "name" => .ok ""
  | .getOption _ _ => .ok "v"
  | _ => .ok ""

/-- A part_001 router that authenticates but whose configuration dump
    fails at the HTTP level. -/
def env1DumpFail : V1.Env1 :=
  { auth := .ok { error := none, result := some "tok" }
    getAll := .error "HTTP 500: Internal Server Error"
    op := fun _ _ => .ok { error := none, result := none } }

/-- The invalid part_001 rule input of the specification example. -/
def cfg1Bad : V1.V1AddConfig :=
  { name := "web", protocol := none, externalPort := 80
    internalIp := "999.1.1.1", internalPort := 80
    src := none, dest := none, target := none }

/-- A redirect section whose enabled option is absent (empty). -/
def sec1Redirect : V1.V1Section :=
  { type := "redirect", name := "web", target := "DNAT", src := "wan"
    dest := "lan", proto := "tcp", src_dport := "8080"
    dest_ip := "10.0.0.5", dest_port := "80", enabled := "", reflection := "" }

/-- A non-redirect section. -/
def sec1Zone : V1.V1Section :=
  { type := "zone", name := "", target := "", src := "", dest := ""
    proto := "", src_dport := "", dest_ip := "", dest_port := ""
    enabled := "", reflection := "" }

/-- A firewall dump with one redirect and one other section. -/
def sections1 : List (String × V1.V1Section) :=
  [("myrule", sec1Redirect), ("wanzone", sec1Zone)]

/-- A part_001 router that authenticates and serves the dump above. -/
def env1List : V1.Env1 :=
  { auth := .ok { error := none, result := some "tok" }
    getAll := .ok { error := none, result := some sections1 }
    op := fun _ _ => .ok { error := none, result := none } }

/-- A concrete block cipher instance for evaluating the codec theorems
    (the statements hold for every block cipher). -/
def E0 : Nat → Nat → Nat := fun key b => (b + key + 99) % 2 ^ 128

/-- A concrete 16-byte initialization vector. -/
def iv16 : List Nat := [0, 1, 2, 3, 4, 5, 6, 7, 8, 9, 10, 11, 12, 13, 14, 15]

/-- A concrete nonempty plaintext. -/
def pHello : List Nat := [104, 101, 108, 108, 111]

/-- The client state left behind when initialization fails on both
    transports: both inner clients constructed, mode still auto. -/
def stUnreachable : V2.ClientState :=
  { connectionMode := .auto, sshClient := true, rpcClient := true
    authToken := none }

/-!
## Helper lemmas

Unfolding equations for the three effect monads and inversion principles for
successful runs, used to reason about operations under quantified
environments.
-/

theorem M_bind_def {α β : Type} (x : V2.M α) (f : α → V2.M β) :
    x >>= f = V2.M.bind x f := rfl

theorem M_pure_def {α : Type} (a : α) : (pure a : V2.M α) = V2.M.pure a := rfl

theorem S_bind_def {α β : Type} (x : V2.S α) (f : α → V2.S β) :
    x >>= f = V2.S.bind x f := rfl

theorem S_pure_def {α : Type} (a : α) : (pure a : V2.S α) = V2.S.pure a := rfl

theorem S1_bind_def {α β : Type} (x : V1.S1 α) (f : α → V1.S1 β) :
    x >>= f = V1.S1.bind x f := rfl

theorem S1_pure_def {α : Type} (a : α) : (pure a : V1.S1 α) = V1.S1.pure a := rfl

/-- Inversion of a successful SSH-client run of a bind: both halves ran
    successfully and the traces concatenate. -/
theorem M_bind_ok {α β : Type} {x : V2.M α} {f : α → V2.M β} {env : V2.SshEnv}
    {b : β} {t : List V2.Cmd} (h : (x >>= f) env = (.ok b, t)) :
    ∃ a t1 t2, x env = (.ok a, t1) ∧ f a env = (.ok b, t2) ∧ t = t1 ++ t2 := by
  have h2 : V2.M.bind x f env = (.ok b, t) := h
  unfold V2.M.bind at h2
  cases hx : x env with
  | mk r tr =>
    cases r with
    | error e => rw [hx] at h2; simp at h2
    | ok a =>
      rw [hx] at h2
      simp only [Prod.mk.injEq] at h2
      exact ⟨a, tr, (f a env).2, rfl, by rw [← h2.1], h2.2.symm⟩

/-- Inversion of a pure SSH-client run. -/
theorem M_pure_ok {α : Type} {a b : α} {env : V2.SshEnv} {t : List V2.Cmd}
    (h : V2.M.pure a env = (.ok b, t)) : a = b ∧ t = [] := by
  unfold V2.M.pure at h
  simp only [Prod.mk.injEq, Except.ok.injEq] at h
  exact ⟨h.1, h.2.symm⟩

/-- A successful run of the getRedirects loop body for one section read its
    enabled option from the transport and reported the rule enabled exactly
    when the value read is not the string 0. -/
theorem readRule_spec {nm : String} {senv : V2.SshEnv} {r : V2.Rule}
    {t : List V2.Cmd} (h : V2.readRule nm senv = (.ok r, t)) :
    r.id = nm ∧ ∃ v, senv (V2.Cmd.getOption nm "enabled") = .ok v ∧
      r.enabled = (v != "0") := by
  unfold V2.readRule at h
  obtain ⟨a1, t1, t2, h1, h, -⟩ := M_bind_ok h
  obtain ⟨a2, t1, t2, h2, h, -⟩ := M_bind_ok h
  obtain ⟨a3, t1, t2, h3, h, -⟩ := M_bind_ok h
  obtain ⟨a4, t1, t2, h4, h, -⟩ := M_bind_ok h
  obtain ⟨a5, t1, t2, h5, h, -⟩ := M_bind_ok h
  obtain ⟨a6, t1, t2, h6, h, -⟩ := M_bind_ok h
  obtain ⟨a7, t1, t2, h7, h, -⟩ := M_bind_ok h
  obtain ⟨a8, t1, t2, h8, h, -⟩ := M_bind_ok h
  obtain ⟨a9, t1, t2, h9, h, -⟩ := M_bind_ok h
  obtain ⟨hr, -⟩ := M_pure_ok h
  subst hr
  have h9e : senv (V2.Cmd.getOption nm "enabled") = .ok a9 := by
    have h9p : (senv (V2.Cmd.getOption nm "enabled"),
        [V2.Cmd.getOption nm "enabled"]) =
        ((Except.ok a9 : Except String String), t1) := h9
    simpa using congrArg Prod.fst h9p
  exact ⟨rfl, a9, h9e, rfl⟩

/-- Every rule produced by a successful run of the getRedirects line loop
    carries the enabled flag computed from its own enabled read. -/
theorem processLines_spec : ∀ (lines : List (List Char)) (senv : V2.SshEnv)
    (rs : List V2.Rule) (t : List V2.Cmd),
    V2.processLines lines senv = (.ok rs, t) →
    ∀ r ∈ rs, ∃ v, senv (V2.Cmd.getOption r.id "enabled") = .ok v ∧
      r.enabled = (v != "0") := by
  intro lines
  induction lines with
  | nil =>
    intro senv rs t h r hr
    unfold V2.processLines V2.M.pure at h
    simp only [Prod.mk.injEq, Except.ok.injEq] at h
    rw [← h.1] at hr
    cases hr
  | cons line rest ih =>
    intro senv rs t h r hr
    unfold V2.processLines at h
    cases hm : V2.matchRedirectLine line with
    | none =>
      rw [hm] at h
      exact ih senv rs t h r hr
    | some cap =>
      rw [hm] at h
      obtain ⟨r0, t1, t2, h1, h, -⟩ := M_bind_ok h
      obtain ⟨rs0, t3, t4, h3, h, -⟩ := M_bind_ok h
      obtain ⟨hr0, -⟩ := M_pure_ok h
      rw [← hr0] at hr
      rcases List.mem_cons.mp hr with rfl | hmem
      · obtain ⟨hid, v, hv, he⟩ := readRule_spec h1
        exact ⟨v, by rw [hid]; exact hv, he⟩
      · exact ih senv rs0 t3 h3 r hmem

/-- Every rule returned by getRedirects carries the enabled flag computed
    from the enabled option read for its own section. -/
theorem getRedirects_spec (senv : V2.SshEnv) (rs : List V2.Rule)
    (t : List V2.Cmd) (h : V2.getRedirects senv = (.ok rs, t)) :
    ∀ r ∈ rs, ∃ v, senv (V2.Cmd.getOption r.id "enabled") = .ok v ∧
      r.enabled = (v != "0") := by
  unfold V2.getRedirects V2.M.tryCatch at h
  cases hb : V2.getRedirectsBody senv with
  | mk rb tb =>
    cases rb with
    | error e =>
      rw [hb] at h
      simp [V2.M.pure, Prod.mk.injEq] at h
      rw [h.1]
      intro r hr; cases hr
    | ok rs2 =>
      rw [hb] at h
      simp only [Prod.mk.injEq, Except.ok.injEq] at h
      obtain ⟨rfl, rfl⟩ := h
      unfold V2.getRedirectsBody at hb
      obtain ⟨out, t1, t2, h1, h2, -⟩ := M_bind_ok hb
      by_cases ho : out = ""
      · rw [if_pos ho] at h2
        obtain ⟨hr0, -⟩ := M_pure_ok h2
        rw [← hr0]
        intro r hr; cases hr
      · rw [if_neg ho] at h2
        exact processLines_spec _ senv rs2 t2 h2

/-- The big-endian expansion always has the requested length. -/
theorem toBytesBE_length (k : Nat) : ∀ v, (RouterEncryption.toBytesBE k v).length = k := by
  induction k with
  | zero => intro v; rfl
  | succ n ih => intro v; simp [RouterEncryption.toBytesBE, ih]

/-- Flattening uniformly sized sixteen-byte blocks over a range. -/
theorem flatten_map_length (g : Nat → List Nat) (h : ∀ i, (g i).length = 16) :
    ∀ m, (((List.range m).map g).flatten).length = 16 * m := by
  intro m
  induction m with
  | zero => rfl
  | succ n ih =>
    rw [List.range_succ, List.map_append, List.flatten_append]
    simp [ih, h]
    ring

/-- The counter-mode keystream has exactly the requested length. -/
theorem ksBytes_length (E : Nat → Nat → Nat) (key j0 n : Nat) :
    (RouterEncryption.ksBytes E key j0 n).length = n := by
  unfold RouterEncryption.ksBytes
  rw [List.length_take,
    flatten_map_length _ (fun i => toBytesBE_length 16 _) ((n + 15) / 16)]
  omega

/-- Applying the same keystream twice restores the plaintext. -/
theorem zipWith_xor_cancel : ∀ (p ks : List Nat), p.length ≤ ks.length →
    List.zipWith (· ^^^ ·) (List.zipWith (· ^^^ ·) p ks) ks = p := by
  intro p
  induction p with
  | nil => intro ks h; simp
  | cons a ptl ih =>
    intro ks h
    cases ks with
    | nil => simp at h
    | cons b kstl =>
      simp only [List.zipWith_cons_cons]
      rw [Nat.xor_assoc, Nat.xor_self, Nat.xor_zero,
        ih kstl (Nat.le_of_succ_le_succ (by simpa using h))]

/-!
## Claims
-/

/-- C1, counterexample: on the rule input with internal address 999.1.1.1
    (not a well-formed dotted quad), SshUciClient.addRedirect does not fail
    with a validation error: it succeeds and issues twelve remote shell
    commands, so the add-rule operation neither rejects the input nor stays
    at zero remote calls. -/
theorem C1_counterexample :
    (V2.addRedirect cfg999 envAllOk).1 = .ok { success := true, id := "port_forward" } ∧
    ((V2.addRedirect cfg999 envAllOk).2).length = 12 ∧
    isValidIpAddress cfg999.internalIp = false := ⟨rfl, rfl, rfl⟩

/-- C1, amended: only the part_001 addPortForwarding validates; on an
    invalid internal address it fails with an error naming the internal IP
    address and issues no UCI call, but when the client holds no auth token
    it first issues exactly one authentication call (and none at all when a
    token is already stored).  SshUciClient.addRedirect validates nothing. -/
theorem C1_amended (env : V1.Env1) (tok : String) (cfg : V1.V1AddConfig)
    (hip : isValidIpAddress cfg.internalIp = false) :
    V1.addPortForwarding1 cfg env (some tok) =
      (.error ("Invalid internal IP address: " ++ cfg.internalIp), some tok, []) ∧
    (∀ d : V1.V1Resp, env.auth = .ok d → d.error = none →
      V1.addPortForwarding1 cfg env none =
        (.error ("Invalid internal IP address: " ++ cfg.internalIp), d.result,
          [V1.V1Req.auth])) := by
  constructor
  · simp [V1.addPortForwarding1, V1.ensureAuth, V1.getToken, S1_bind_def,
      S1_pure_def, V1.S1.bind, V1.S1.pure, V1.S1.throw, hip]
  · intro d hd hde
    simp [V1.addPortForwarding1, V1.ensureAuth, V1.getToken, V1.authenticate1,
      V1.fetchAuth, V1.setToken, S1_bind_def, S1_pure_def, V1.S1.bind,
      V1.S1.pure, V1.S1.throw, hip, hd, hde]

/-- C1, witness: the amended statement evaluated on the concrete invalid
    input of the specification example, with and without a stored token. -/
theorem C1_amended_witness :
    V1.addPortForwarding1 cfg1Bad env1DumpFail (some "t") =
      (.error "Invalid internal IP address: 999.1.1.1", some "t", []) ∧
    V1.addPortForwarding1 cfg1Bad env1DumpFail none =
      (.error "Invalid internal IP address: 999.1.1.1", some "tok",
        [V1.V1Req.auth]) := by
  have h := C1_amended env1DumpFail "t" cfg1Bad (by decide)
  exact ⟨h.1, h.2 { error := none, result := some "tok" } rfl rfl⟩

/-- C2, counterexample: on the valid end-to-end example input,
    SshUciClient.addRedirect issues nine field-set commands, not eight: the
    section name is written as a set of the name option rather than by a
    section rename, so the claimed add, rename, eight sets, commit, reload
    sequence is not the one issued. -/
theorem C2_counterexample :
    ((V2.addRedirect cfgWeb envAllOk).2.filter isSetCmd).length = 9 ∧
    (V2.addRedirect cfgWeb envAllOk).1 = .ok { success := true, id := "web" } :=
  ⟨rfl, rfl⟩

/-- C2, amended: for every rule input, when every command succeeds the
    interactive-mode add-rule operation issues exactly, in order, one
    section add, nine option sets addressed through the relative index
    (name, target DNAT, src wan, dest lan, protocol, external port,
    internal address, internal port, enabled 1), one commit, and one
    best-effort firewall restart, and returns the non-null UCI-safe name
    derived from the rule name as the native identifier. -/
theorem C2_amended (env : V2.SshEnv) (outf : V2.Cmd → String) (cfg : V2.RuleConfig)
    (h : ∀ c, env c = .ok (outf c)) :
    V2.addRedirect cfg env =
      (.ok { success := true, id := generateUciName (jsOrS cfg.name "port_forward") },
       [V2.Cmd.addSection,
        V2.Cmd.setLast "name" (generateUciName (jsOrS cfg.name "port_forward")),
        V2.Cmd.setLast "target" "DNAT",
        V2.Cmd.setLast "src" "wan",
        V2.Cmd.setLast "dest" "lan",
        V2.Cmd.setLast "proto" (jsOrS cfg.protocol "tcp"),
        V2.Cmd.setLast "src_dport" (toString cfg.externalPort),
        V2.Cmd.setLast "dest_ip" cfg.internalIp,
        V2.Cmd.setLast "dest_port" (toString cfg.internalPort),
        V2.Cmd.setLast "enabled" "1",
        V2.Cmd.commit,
        V2.Cmd.restartFirewall]) := by
  simp [V2.addRedirect, M_bind_def, M_pure_def, V2.M.bind, V2.M.pure,
    V2.execCmd, h]

/-- C2, witness: the amended command sequence evaluated on the end-to-end
    example input against an all-accepting transport. -/
theorem C2_amended_witness :
    V2.addRedirect cfgWeb envAllOk =
      (.ok { success := true, id := "web" },
       [V2.Cmd.addSection,
        V2.Cmd.setLast "name" "web",
        V2.Cmd.setLast "target" "DNAT",
        V2.Cmd.setLast "src" "wan",
        V2.Cmd.setLast "dest" "lan",
        V2.Cmd.setLast "proto" "tcp",
        V2.Cmd.setLast "src_dport" "8080",
        V2.Cmd.setLast "dest_ip" "10.0.0.5",
        V2.Cmd.setLast "dest_port" "80",
        V2.Cmd.setLast "enabled" "1",
        V2.Cmd.commit,
        V2.Cmd.restartFirewall]) :=
  C2_amended envAllOk (fun _ => "") cfgWeb (fun _ => rfl)

/-- C3, counterexample: a client bound to the rpc transport that calls
    testConnection comes out bound to ssh (even against a router whose SSH
    probe fails), so a bound client does not keep its transport across
    testConnection calls. -/
theorem C3_counterexample :
    stRpcBound.connectionMode = V2.CMode.rpc ∧
    ((V2.owTestConnection envBothFail stRpcBound).2.1).connectionMode =
      V2.CMode.ssh :=
  ⟨rfl, rfl⟩

/-- C3, amended: OpenWrtClient.testConnection always rebinds the client to
    the ssh transport, whatever mode it held and whatever the probe
    returned; consequently mode is preserved by repeated testConnection
    calls only for clients already bound to ssh. -/
theorem C3_amended (env : V2.Env2) (st : V2.ClientState) :
    ((V2.owTestConnection env st).2.1).connectionMode = V2.CMode.ssh := by
  cases h : env.ssh V2.Cmd.probe with
  | ok v =>
    simp [V2.owTestConnection, V2.liftSsh, V2.sshTestConnection, V2.M.tryCatch,
      M_bind_def, M_pure_def, S_bind_def, S_pure_def, V2.M.bind, V2.M.pure,
      V2.S.bind, V2.S.pure, V2.execCmd, V2.modifyState, h]
  | error e =>
    simp [V2.owTestConnection, V2.liftSsh, V2.sshTestConnection, V2.M.tryCatch,
      M_bind_def, M_pure_def, S_bind_def, S_pure_def, V2.M.bind, V2.M.pure,
      V2.S.bind, V2.S.pure, V2.execCmd, V2.modifyState, h]

/-- C4: in auto mode initialize probes the SSH transport first; when that
    probe succeeds the client is pinned to ssh having issued exactly the one
    SSH probe and no RPC traffic; when the SSH probe fails and the RPC
    transport accepts both the login and the system-info call, the client is
    pinned to rpc with exactly one (failed) SSH probe in its trace. -/
theorem C4_confirmed (env : V2.Env2) :
    (∀ v, env.ssh V2.Cmd.probe = .ok v →
      V2.initClient env stFresh =
        (.ok (), { connectionMode := .ssh, sshClient := true, rpcClient := false,
                   authToken := none }, [.ssh .probe])) ∧
    (∀ (e : String) (tokres : Option String) (d : V2.RpcData),
      env.ssh V2.Cmd.probe = .error e →
      env.rpc V2.RpcReq.login = .ok { error := none, result := tokres } →
      env.rpc (V2.sysInfoReq tokres) = .ok d →
      V2.initClient env stFresh =
        (.ok (), { connectionMode := .rpc, sshClient := true, rpcClient := true,
                   authToken := tokres },
         [.ssh .probe, .rpc .login, .rpc (V2.sysInfoReq tokres), .rpc .login])) := by
  constructor
  · intro v hv
    simp [V2.initClient, V2.getState, V2.modifyState, V2.liftSsh,
      V2.sshTestConnection, V2.M.tryCatch, M_bind_def, M_pure_def,
      S_bind_def, S_pure_def, V2.M.bind, V2.M.pure, V2.S.bind, V2.S.pure,
      V2.execCmd, stFresh, hv]
  · intro e tokres d he hlogin hinfo
    simp [V2.initClient, V2.getState, V2.modifyState, V2.liftSsh,
      V2.sshTestConnection, V2.rpcTestConnection, V2.rpcAuthenticate,
      V2.rpcFetch, V2.M.tryCatch, V2.S.tryCatch, M_bind_def, M_pure_def,
      S_bind_def, S_pure_def, V2.M.bind, V2.M.pure, V2.S.bind, V2.S.pure,
      V2.S.throw, V2.execCmd, stFresh, he, hlogin, hinfo]

/-- C4, witness: both probe orders evaluated against concrete routers, one
    accepting SSH and one accepting only RPC. -/
theorem C4_witness :
    V2.initClient envSshUp stFresh =
      (.ok (), { connectionMode := .ssh, sshClient := true, rpcClient := false,
                 authToken := none }, [.ssh .probe]) ∧
    V2.initClient envRpcUp stFresh =
      (.ok (), { connectionMode := .rpc, sshClient := true, rpcClient := true,
                 authToken := some "tok" },
       [.ssh .probe, .rpc .login, .rpc (V2.sysInfoReq (some "tok")), .rpc .login]) :=
  ⟨(C4_confirmed envSshUp).1 "OpenWrt 21.02" rfl,
   (C4_confirmed envRpcUp).2 "All configured authentication methods failed"
     (some "tok") { error := none, result := some "tok" } rfl rfl rfl⟩

/-- C5, counterexample: after both probes fail, initialize throws the
    unreachable error, but the subsequent listing operation does issue a
    remote RPC call (and the subsequent add operation fails with the
    not-implemented error rather than a router-unreachable error). -/
theorem C5_counterexample :
    (V2.initClient envBothFail stFresh).1 =
      .error "Unable to connect to router. Please check your settings." ∧
    (V2.getPortForwardings envBothFail (V2.initClient envBothFail stFresh).2.1).2.2 =
      [V2.Call.rpc (V2.uciReq none "get" ["firewall"])] ∧
    (V2.owAddPortForwarding cfgWeb envBothFail
        (V2.initClient envBothFail stFresh).2.1).1 =
      .error "JSON-RPC mode not yet implemented for adding forwardings" :=
  ⟨rfl, rfl, rfl⟩

/-- C5, amended: when both probes fail, initialize throws the unreachable
    error and leaves the client in auto mode with both inner clients
    constructed; afterwards the add and delete operations fail with a
    not-implemented error without issuing any remote call, while the listing
    operation issues exactly one RPC uci get call instead of failing without
    remote traffic. -/
theorem C5_amended :
    (∀ (env : V2.Env2) (e1 e2 : String),
      env.ssh V2.Cmd.probe = .error e1 →
      env.rpc V2.RpcReq.login = .error e2 →
      V2.initClient env stFresh =
        (.error "Unable to connect to router. Please check your settings.",
         stUnreachable, [.ssh .probe, .rpc .login])) ∧
    (∀ (env : V2.Env2) (st : V2.ClientState) (cfg : V2.RuleConfig) (id : String),
      st.connectionMode = .auto →
      V2.owAddPortForwarding cfg env st =
        (.error "JSON-RPC mode not yet implemented for adding forwardings", st, []) ∧
      V2.owDeletePortForwarding id env st =
        (.error "JSON-RPC mode not yet implemented for deleting forwardings", st, []) ∧
      (st.rpcClient = true →
        (V2.getPortForwardings env st).2.2 =
          [.rpc (V2.uciReq st.authToken "get" ["firewall"])])) := by
  constructor
  · intro env e1 e2 h1 h2
    simp [V2.initClient, V2.getState, V2.modifyState, V2.liftSsh,
      V2.sshTestConnection, V2.rpcTestConnection, V2.rpcAuthenticate,
      V2.rpcFetch, V2.M.tryCatch, V2.S.tryCatch, M_bind_def, M_pure_def,
      S_bind_def, S_pure_def, V2.M.bind, V2.M.pure, V2.S.bind, V2.S.pure,
      V2.S.throw, V2.execCmd, stFresh, stUnreachable, h1, h2]
  · intro env st cfg id hmode
    refine ⟨?_, ?_, ?_⟩
    · simp [V2.owAddPortForwarding, V2.getState, S_bind_def, S_pure_def,
        V2.S.bind, V2.S.pure, V2.S.throw, hmode]
    · simp [V2.owDeletePortForwarding, V2.getState, S_bind_def, S_pure_def,
        V2.S.bind, V2.S.pure, V2.S.throw, hmode]
    · intro hrc
      cases hr : env.rpc (V2.uciReq st.authToken "get" ["firewall"]) with
      | ok d =>
        simp [V2.getPortForwardings, V2.getState, V2.rpcFetch, S_bind_def,
          S_pure_def, V2.S.bind, V2.S.pure, V2.S.throw, hmode, hrc, hr]
      | error e =>
        simp [V2.getPortForwardings, V2.getState, V2.rpcFetch, S_bind_def,
          S_pure_def, V2.S.bind, V2.S.pure, V2.S.throw, hmode, hrc, hr]

/-- C5, witness: the amended behavior evaluated against the concrete router
    rejecting both transports. -/
theorem C5_amended_witness :
    V2.initClient envBothFail stFresh =
      (.error "Unable to connect to router. Please check your settings.",
       stUnreachable, [.ssh .probe, .rpc .login]) ∧
    V2.owAddPortForwarding cfgWeb envBothFail stUnreachable =
      (.error "JSON-RPC mode not yet implemented for adding forwardings",
       stUnreachable, []) ∧
    V2.owDeletePortForwarding "myrule" envBothFail stUnreachable =
      (.error "JSON-RPC mode not yet implemented for deleting forwardings",
       stUnreachable, []) ∧
    (V2.getPortForwardings envBothFail stUnreachable).2.2 =
      [.rpc (V2.uciReq none "get" ["firewall"])] := by
  have h2 := C5_amended.2 envBothFail stUnreachable cfgWeb "myrule" rfl
  exact ⟨C5_amended.1 envBothFail "connect ECONNREFUSED" "HTTP 404: Not Found" rfl rfl,
    h2.1, h2.2.1, h2.2.2 rfl⟩

/-- C6: for every block cipher, key, 16-byte initialization vector and
    nonempty plaintext, decrypting the triple produced by encrypt with the
    same key material returns exactly the plaintext. -/
theorem C6_roundtrip (E : Nat → Nat → Nat) (key : Nat) (iv p : List Nat)
    (hp : p ≠ []) (hiv : iv.length = 16) :
    ∃ tr, RouterEncryption.encrypt E key iv p = .ok tr ∧
      RouterEncryption.decrypt E key tr = .ok p := by
  refine ⟨_, by rw [RouterEncryption.encrypt, if_neg hp], ?_⟩
  have hclen :
      (List.zipWith (· ^^^ ·) p
        (RouterEncryption.ksBytes E key (RouterEncryption.deriveJ0 E key iv)
          p.length)).length = p.length := by
    rw [List.length_zipWith, ksBytes_length]
    omega
  have hcne :
      List.zipWith (· ^^^ ·) p
        (RouterEncryption.ksBytes E key (RouterEncryption.deriveJ0 E key iv)
          p.length) ≠ [] := by
    intro h0
    apply hp
    have hl := hclen
    rw [h0] at hl
    exact List.length_eq_zero.mp hl.symm
  have hivne : iv ≠ [] := by
    intro h0; rw [h0] at hiv; simp at hiv
  have htagne : RouterEncryption.gcmTag E key iv
      (List.zipWith (· ^^^ ·) p
        (RouterEncryption.ksBytes E key (RouterEncryption.deriveJ0 E key iv)
          p.length)) ≠ [] := by
    intro h0
    have hl := toBytesBE_length 16
      (E key (RouterEncryption.deriveJ0 E key iv) ^^^
        RouterEncryption.ghashBlocks (E key 0 % 2 ^ 128)
          (RouterEncryption.chunkBlocks (List.zipWith (· ^^^ ·) p
            (RouterEncryption.ksBytes E key (RouterEncryption.deriveJ0 E key iv)
              p.length)) ++
           [RouterEncryption.lenBlock (List.zipWith (· ^^^ ·) p
            (RouterEncryption.ksBytes E key (RouterEncryption.deriveJ0 E key iv)
              p.length)).length]))
    rw [RouterEncryption.gcmTag] at h0
    rw [h0] at hl
    simp at hl
  rw [RouterEncryption.decrypt]
  rw [if_neg (by push_neg; exact ⟨hcne, hivne, htagne⟩)]
  rw [if_pos rfl]
  rw [hclen]
  exact congrArg Except.ok
    (zipWith_xor_cancel p _ (by rw [ksBytes_length]))

/-- C6, witness: the round trip evaluated at a concrete cipher, key,
    initialization vector and plaintext. -/
theorem C6_witness :
    ∃ tr, RouterEncryption.encrypt E0 7 iv16 pHello = .ok tr ∧
      RouterEncryption.decrypt E0 7 tr = .ok pHello :=
  C6_roundtrip E0 7 iv16 pHello (by decide) (by decide)

/-- C8, counterexample: when the listing command itself fails at the
    transport, SshUciClient.getRedirects returns a successful empty rule
    list instead of propagating the failure. -/
theorem C8_counterexample :
    V2.getRedirects envShowFail = (.ok [], [V2.Cmd.showRedirects]) := rfl

/-- C8, amended: the part_001 listing propagates remote failures unchanged
    to the caller, but the part_002 SSH listing never does: getRedirects
    always returns a successful result, and converts a failing listing
    command into a successful empty rule list. -/
theorem C8_amended :
    (∀ senv : V2.SshEnv, ∃ rs, (V2.getRedirects senv).1 = .ok rs) ∧
    (∀ (senv : V2.SshEnv) (e : String), senv V2.Cmd.showRedirects = .error e →
      V2.getRedirects senv = (.ok [], [V2.Cmd.showRedirects])) ∧
    (∀ (env : V1.Env1) (tok e : String), env.getAll = .error e →
      V1.getPortForwardings1 env (some tok) =
        (.error e, some tok, [V1.V1Req.uci "get_all" ["firewall"]])) := by
  refine ⟨?_, ?_, ?_⟩
  · intro senv
    cases hb : V2.getRedirectsBody senv with
    | mk r t =>
      cases r with
      | error e =>
        exact ⟨[], by simp [V2.getRedirects, V2.M.tryCatch, hb, V2.M.pure]⟩
      | ok rs => exact ⟨rs, by simp [V2.getRedirects, V2.M.tryCatch, hb]⟩
  · intro senv e h
    simp [V2.getRedirects, V2.getRedirectsBody, V2.M.tryCatch, M_bind_def,
      M_pure_def, V2.M.bind, V2.M.pure, V2.execCmd, h]
  · intro env tok e h
    simp [V1.getPortForwardings1, V1.ensureAuth, V1.getToken, V1.uciGetAll,
      V1.fetchGetAll, V1.S1.tryCatch, S1_bind_def, S1_pure_def, V1.S1.bind,
      V1.S1.pure, V1.S1.throw, h]

/-- C8, witness: the amended statement evaluated against concrete failing
    and succeeding transports. -/
theorem C8_amended_witness :
    (∃ rs, (V2.getRedirects envAllOk).1 = .ok rs) ∧
    V2.getRedirects envShowFail = (.ok [], [V2.Cmd.showRedirects]) ∧
    V1.getPortForwardings1 env1DumpFail (some "t") =
      (.error "HTTP 500: Internal Server Error", some "t",
        [V1.V1Req.uci "get_all" ["firewall"]]) :=
  ⟨C8_amended.1 envAllOk,
   C8_amended.2.1 envShowFail "Command exited with code 1: " rfl,
   C8_amended.2.2 env1DumpFail "t" "HTTP 500: Internal Server Error" rfl⟩

/-- C9: the address parser maps the bare address 192.168.1.1 to itself with
    the SSH default port 22, and maps the scheme-and-port address
    http://r.local:8080/x to host r.local with port 8080. -/
theorem C9_parseRouterUrl :
    parseRouterUrl "192.168.1.1" =
      { hostname := "192.168.1.1", port := 22,
        baseUrl := "http://192.168.1.1:22" } ∧
    parseRouterUrl "http://r.local:8080/x" =
      { hostname := "r.local", port := 8080, baseUrl := "http://r.local:8080" } :=
  ⟨by decide, by decide⟩

/-- C10, counterexample: against a router exposing one redirect section
    whose enabled option is absent (the uci get for it exits nonzero), the
    SSH listing reports no rule at all, so the section is not reported as
    enabled. -/
theorem C10_counterexample :
    (V2.getRedirects envMissingEnabled).1 = .ok [] ∧
    envMissingEnabled V2.Cmd.showRedirects = .ok "firewall.myrule=redirect" ∧
    envMissingEnabled (V2.Cmd.getOption "myrule" "enabled") =
      .error "Command exited with code 1: uci: Entry not found" :=
  ⟨rfl, rfl, rfl⟩

/-- C10, amended: every rule returned by either listing operation carries
    an enabled flag that is true exactly when the enabled value read for its
    section is not the string 0 (in the RPC listing an absent option is the
    empty value and is therefore reported enabled); in the SSH listing a
    section with an absent enabled option is never returned, because the
    failing read aborts the listing to an empty result. -/
theorem C10_amended :
    (∀ (env : V1.Env1) (tok : String) (sections : List (String × V1.V1Section))
       (rs : List V1.V1Rule) (tok2 : Option String) (tr : List V1.V1Req),
      env.getAll = .ok { error := none, result := some sections } →
      V1.getPortForwardings1 env (some tok) = (.ok rs, tok2, tr) →
      ∀ r ∈ rs, ∃ k sec, (k, sec) ∈ sections ∧ sec.type = "redirect" ∧
        r.uciName = k ∧ r.enabled = (sec.enabled != "0")) ∧
    (∀ (senv : V2.SshEnv) (rs : List V2.Rule) (t : List V2.Cmd),
      V2.getRedirects senv = (.ok rs, t) →
      ∀ r ∈ rs, ∃ v, senv (V2.Cmd.getOption r.id "enabled") = .ok v ∧
        r.enabled = (v != "0")) := by
  constructor
  · intro env tok sections rs tok2 tr hga h r hr
    have hcomp : V1.getPortForwardings1 env (some tok) =
        (.ok (((sections.filter (fun kv => kv.2.type = "redirect")).map
          V1.mkV1Rule)), some tok, [V1.V1Req.uci "get_all" ["firewall"]]) := by
      simp [V1.getPortForwardings1, V1.ensureAuth, V1.getToken, V1.uciGetAll,
        V1.fetchGetAll, V1.S1.tryCatch, S1_bind_def, S1_pure_def, V1.S1.bind,
        V1.S1.pure, V1.S1.throw, hga]
    rw [hcomp] at h
    simp only [Prod.mk.injEq, Except.ok.injEq] at h
    rw [← h.1] at hr
    obtain ⟨kv, hkvm, hkv⟩ := List.mem_map.mp hr
    obtain ⟨hmem, htype⟩ := List.mem_filter.mp hkvm
    refine ⟨kv.1, kv.2, hmem, by simpa using htype, ?_, ?_⟩
    · rw [← hkv]; rfl
    · rw [← hkv]; rfl
  · exact getRedirects_spec

/-- C10, witness: the amended statement evaluated against a concrete RPC
    dump with an absent enabled value (reported enabled) and a concrete SSH
    router whose enabled option is the string 0 (reported disabled). -/
theorem C10_amended_witness :
    (∃ k sec, (k, sec) ∈ sections1 ∧ sec.type = "redirect" ∧
      (V1.mkV1Rule ("myrule", sec1Redirect)).uciName = k ∧
      (V1.mkV1Rule ("myrule", sec1Redirect)).enabled = (sec.enabled != "0")) ∧
    (∃ v, envDisabledRule (V2.Cmd.getOption "@redirect[0]" "enabled") = .ok v ∧
      (false = (v != "0"))) := by
  constructor
  · exact C10_amended.1 env1List "t" sections1
      [V1.mkV1Rule ("myrule", sec1Redirect)] (some "t")
      [V1.V1Req.uci "get_all" ["firewall"]] rfl rfl
      (V1.mkV1Rule ("myrule", sec1Redirect)) (List.mem_singleton.mpr rfl)
  · exact C10_amended.2 envDisabledRule
      [{ id := "@redirect[0]", name := "Redirect 0", target := "v", src := "v",
         dest := "v", protocol := "v", external_port := 0, internal_ip := "v",
         internal_port := 0, enabled := false }] _ rfl
      { id := "@redirect[0]", name := "Redirect 0", target := "v", src := "v",
        dest := "v", protocol := "v", external_port := 0, internal_ip := "v",
        internal_port := 0, enabled := false } (List.mem_singleton.mpr rfl)

end Portracker
